import Mathlib

/-!
Verification development for the Armenian election-registry scraping service.

The repository contains three near-duplicate server implementations in
`src/server.ts`:
  - variant A (axios, lines 1-621): no token cache, linear retry delay in the
    catch branch, pagination with a consecutive-empty-page counter and a
    5-page cap (1 page when address details are present);
  - variant B (got-scraping, lines 622-1197): module-level token cache with
    5-minute expiry and single-flight waiters, exponential retry backoff in
    the catch branch, 3-page cap (1 page when address details are present);
  - variant C (got-scraping + proxy, lines 1198-1819): same token cache and
    backoff as B, but a fixed 50-page cap independent of address fields.

The definitions below are shallow embeddings of those functions.  Network
activity is modelled by oracles: a token oracle maps the attempt number to
the outcome of the GET for that attempt, and a page oracle maps the page
index to the outcome of the POST for that page.  Each embedded loop also
returns the number of network requests it issued, so the claims about
request counts can be stated directly.
-/

/-- Character class of the JavaScript `\s` regex class and of `String.prototype.trim`. -/
def isSpaceJSc (c : Char) : Bool :=
  let n := c.toNat
  n = 32 || n = 9 || n = 10 || n = 13 || n = 11 || n = 12 || n = 160 ||
  n = 0x1680 || (0x2000 ≤ n && n ≤ 0x200A) || n = 0x2028 || n = 0x2029 ||
  n = 0x202F || n = 0x205F || n = 0x3000 || n = 0xFEFF

/-- JavaScript `String.prototype.trim`: strip leading and trailing whitespace. -/
def trimJS (s : String) : String :=
  String.mk (((s.data.dropWhile isSpaceJSc).reverse.dropWhile isSpaceJSc).reverse)

/-- JavaScript `String.prototype.length` counts UTF-16 code units: code points
at or above U+10000 count twice. -/
def jsLength (s : String) : Nat :=
  s.data.foldl (fun n c => n + (if c.toNat < 65536 then 1 else 2)) 0

/-- Replace every maximal run of whitespace by a single space, as the
JavaScript `text.replace` of a global whitespace-run regex with a space does. -/
def collapseWs : List Char → List Char
  | [] => []
  | [c] => [if isSpaceJSc c then ' ' else c]
  | c1 :: c2 :: rest =>
    if isSpaceJSc c1 && isSpaceJSc c2 then collapseWs (c2 :: rest)
    else (if isSpaceJSc c1 then ' ' else c1) :: collapseWs (c2 :: rest)

/-- `cleanText` from `server.ts`: collapse whitespace runs to single spaces, then trim. -/
def cleanText (s : String) : String :=
  trimJS (String.mk (collapseWs s.data))

/-- `normalizeArmenianText` from `server.ts`: replace every occurrence of the
Armenian ligature character with the two-letter sequence. -/
def normalizeArmenianText (s : String) : String :=
  String.mk (s.data.flatMap (fun c => if c = 'և' then ['ե', 'ւ'] else [c]))

/-- Does the character list start with the given pattern list? -/
def startsWithChars : List Char → List Char → Bool
  | _, [] => true
  | [], _ :: _ => false
  | h :: hs, n :: ns => h = n && startsWithChars hs ns

/-- Does `needle` occur as a contiguous run inside `hay`? -/
def hasSubChars (needle : List Char) : List Char → Bool
  | [] => needle.isEmpty
  | c :: rest => startsWithChars (c :: rest) needle || hasSubChars needle rest

/-- JavaScript `String.prototype.includes`. -/
def includesJS (s sub : String) : Bool :=
  hasSubChars sub.data s.data

/-- Split a character list at every occurrence of the separator; the empty
list yields one empty field, as JavaScript `split` with a one-character
separator does. -/
def splitCharAux (sep : Char) : List Char → List Char → List (List Char)
  | [], cur => [cur.reverse]
  | c :: rest, cur =>
    if c = sep then cur.reverse :: splitCharAux sep rest []
    else splitCharAux sep rest (c :: cur)

/-- JavaScript `dateStr.split` at the slash character. -/
def splitSlash (s : String) : List String :=
  (splitCharAux '/' s.data []).map String.mk

/-- Value of the longest decimal digit run at the head of the list, if any. -/
def digitsVal (cs : List Char) : Option Nat :=
  let ds := cs.takeWhile Char.isDigit
  if ds.isEmpty then none
  else some (ds.foldl (fun acc c => acc * 10 + (c.toNat - 48)) 0)

/-- JavaScript `parseInt(s, 10)`: skip leading whitespace, read an optional
sign and then the longest digit run; `none` models `NaN`. -/
def parseIntJS (s : String) : Option Int :=
  match s.data.dropWhile isSpaceJSc with
  | '-' :: rest => (digitsVal rest).map (fun n => -(n : Int))
  | '+' :: rest => (digitsVal rest).map (fun n => (n : Int))
  | cs => (digitsVal cs).map (fun n => (n : Int))

/-- JavaScript `s.padStart(2, zeroChar)`. -/
def padStart2 (s : String) : String :=
  if 2 ≤ jsLength s then s
  else String.mk (List.replicate (2 - jsLength s) '0') ++ s

/-- The bounds check of `convertDateFormat`: every component must parse and the
day must lie in 1..31, the month in 1..12, the year in 1900..2100.  Note that
the three components are checked independently; nothing relates the day to the
month (calendar validity is never checked). -/
def dateComponentsValid (day month year : String) : Bool :=
  match parseIntJS day, parseIntJS month, parseIntJS year with
  | some d, some m, some y =>
    decide (1 ≤ d ∧ d ≤ 31 ∧ 1 ≤ m ∧ m ≤ 12 ∧ 1900 ≤ y ∧ y ≤ 2100)
  | _, _, _ => false

/-- `convertDateFormat` from `server.ts` (identical in all three variants):
convert a date from the slash format with day first to the dash format with
year first, returning the empty string on a blank input, on an input that does
not split into exactly three slash-separated parts, or on out-of-bounds
components. -/
def convertDateFormat (dateStr : String) : String :=
  if trimJS dateStr = "" then ""
  else
    match splitSlash dateStr with
    | [day, month, year] =>
      if dateComponentsValid day month year then
        year ++ "-" ++ padStart2 month ++ "-" ++ padStart2 day
      else ""
    | _ => ""

/-- One parsed result row, as in the `SearchResult` interface of `server.ts`. -/
structure SearchResult where
  name : String
  birth_date : String
  region_community : String
  address : String
  district : String
deriving Repr, DecidableEq

/-- One table row of a response page: the text of its `td` cells in order,
and the value of its `style` attribute when present. -/
structure Row where
  cells : List String
  style : Option String
deriving Repr, DecidableEq

/-- The hidden-row test of the parsing loops: the `style` attribute, when
present, contains one of the two spellings of the display-none directive. -/
def rowHidden (r : Row) : Bool :=
  match r.style with
  | some st => includesJS st "display:none" || includesJS st "display: none"
  | none => false

/-- The row-parsing step shared by all three variants: a row is included only
if it has at least 5 cells, is not hidden, and its cleaned name is non-empty;
the five fields are the cleaned texts of the first five cells. -/
def parseRow (r : Row) : Option SearchResult :=
  if 5 ≤ r.cells.length ∧ rowHidden r = false then
    if cleanText (r.cells.getD 0 "") ≠ "" then
      some
        { name := cleanText (r.cells.getD 0 "")
          birth_date := cleanText (r.cells.getD 1 "")
          region_community := cleanText (r.cells.getD 2 "")
          address := cleanText (r.cells.getD 3 "")
          district := cleanText (r.cells.getD 4 "") }
    else none
  else none

/-- Outcome of one page POST in the got-scraping variants: an HTTP response
with a status code and the parsed result table (`none` when the body has no
table body element), or a transport failure. -/
inductive PageOutcome where
  | http (status : Nat) (table : Option (List Row))
  | netError
deriving Repr, DecidableEq

/-- The pagination loop of variants B and C (`while page <= maxPages`):
a non-200 status, a missing table body, a zero-usable-row page, or a
transport error each stop the loop; a page with usable rows appends them and
advances.  The function returns the aggregated rows and the number of page
POSTs issued.  The fuel argument equals the number of remaining allowed
pages, so fuel 0 coincides with the `page > maxPages` exit. -/
def pagingGoB (oracle : Nat → PageOutcome) (maxPages : Nat) :
    Nat → Nat → List SearchResult → Nat → List SearchResult × Nat
  | 0, _, acc, posts => (acc, posts)
  | fuel + 1, page, acc, posts =>
    if maxPages < page then (acc, posts)
    else
      match oracle page with
      | .netError => (acc, posts + 1)
      | .http status table =>
        if status ≠ 200 then (acc, posts + 1)
        else
          match table with
          | none => (acc, posts + 1)
          | some rows =>
            let pageResults := rows.filterMap parseRow
            if 0 < pageResults.length then
              pagingGoB oracle maxPages fuel (page + 1) (acc ++ pageResults) (posts + 1)
            else (acc, posts + 1)

/-- The page loop of variant B: the page cap is 1 when any of street,
building or apartment is non-empty, and 3 otherwise (lines 936-938). -/
def getSearchResultsBpages (street building apartment : String)
    (oracle : Nat → PageOutcome) : List SearchResult × Nat :=
  let maxPages := if street ≠ "" ∨ building ≠ "" ∨ apartment ≠ "" then 1 else 3
  pagingGoB oracle maxPages maxPages 1 [] 0

/-- The page loop of variant C: the page cap is the fixed constant 50,
independent of the address fields (lines 1536-1538); the loop body is the
same as in variant B. -/
def getSearchResultsCpages (street building apartment : String)
    (oracle : Nat → PageOutcome) : List SearchResult × Nat :=
  pagingGoB oracle 50 50 1 [] 0

/-- Outcome of one page POST in variant A: a response carries a flag for the
rate-limit body check (`Too Many Requests` or `429` in the body), the status
code, and the result table (`none` when the table body is missing or blank),
or the request fails in transport. -/
inductive PageOutcomeA where
  | resp (blocked : Bool) (status : Nat) (table : Option (List Row))
  | netError
deriving Repr, DecidableEq

/-- The pagination loop of variant A (lines 294-458): it additionally tracks
a consecutive-empty-page counter and stops after 2 consecutive empty pages; a
transport error skips to the next page instead of stopping, unless the cap is
reached. -/
def pagingGoA (oracle : Nat → PageOutcomeA) (maxPages : Nat) :
    Nat → Nat → Nat → List SearchResult → Nat → List SearchResult × Nat
  | 0, _, _, acc, posts => (acc, posts)
  | fuel + 1, page, consecEmpty, acc, posts =>
    if maxPages < page ∨ 2 ≤ consecEmpty then (acc, posts)
    else
      match oracle page with
      | .netError =>
        if page < maxPages then
          pagingGoA oracle maxPages fuel (page + 1) (consecEmpty + 1) acc (posts + 1)
        else (acc, posts + 1)
      | .resp blocked status table =>
        if blocked then (acc, posts + 1)
        else if status ≠ 200 then (acc, posts + 1)
        else
          match table with
          | none =>
            if 2 ≤ consecEmpty + 1 then (acc, posts + 1)
            else pagingGoA oracle maxPages fuel (page + 1) (consecEmpty + 1) acc (posts + 1)
          | some rows =>
            let pageResults := rows.filterMap parseRow
            if 0 < pageResults.length then
              pagingGoA oracle maxPages fuel (page + 1) 0 (acc ++ pageResults) (posts + 1)
            else if 2 ≤ consecEmpty + 1 then (acc, posts + 1)
            else pagingGoA oracle maxPages fuel (page + 1) (consecEmpty + 1) acc (posts + 1)

/-- The page loop of variant A: the page cap is 1 when any address detail is
present and 5 otherwise (lines 275-278). -/
def getSearchResultsApages (street building apartment : String)
    (oracle : Nat → PageOutcomeA) : List SearchResult × Nat :=
  let maxPages := if street ≠ "" ∨ building ≠ "" ∨ apartment ≠ "" then 1 else 5
  pagingGoA oracle maxPages maxPages 1 0 [] 0

/-- `MAX_RETRIES` of `server.ts`. -/
def MAX_RETRIES : Nat := 3

/-- `RETRY_DELAY` of variants B and C, in milliseconds. -/
def RETRY_DELAY : Nat := 2000

/-- `TOKEN_CACHE_DURATION` of variants B and C: five minutes in milliseconds. -/
def TOKEN_CACHE_DURATION : Nat := 5 * 60 * 1000

/-- The module-level `cachedToken` slot of variants B and C. -/
structure CachedToken where
  token : String
  cookies : String
  timestamp : Nat
deriving Repr, DecidableEq

/-- Outcome of one token-fetch attempt (one GET to the base URL): an HTTP
response carrying the status code, the value of the hidden verification-token
input when the page has one, and the set-cookie headers; or a transport
failure. -/
inductive AttemptOutcome where
  | page (status : Nat) (token : Option String) (cookies : List String)
  | netError
deriving Repr, DecidableEq

/-- Negation of the success test of one token-fetch attempt: the attempt
fails unless the status is 200 and a non-empty token was found. -/
def attemptFailed (o : AttemptOutcome) : Bool :=
  match o with
  | .page status token _ => !(decide (status = 200 ∧ 0 < (token.getD "").length))
  | .netError => true

/-- The retry loop of `fetchCsrfToken` in variants B and C (lines 739-814):
attempts run from 1 to `retries`; a successful attempt returns the token and
the joined cookie string; a transport failure inserts a backoff delay of
`RETRY_DELAY` times 2 to the power of the attempt number minus 1 before the
next attempt; a 200 response without a token, or a non-200 response, retries
immediately.  The result carries the number of GETs issued and, as trace
instrumentation, the list of delays inserted between consecutive attempts
(an immediate retry records a 0 delay; no entry is recorded after the final
attempt because no further attempt follows). -/
def attemptLoop (oracle : Nat → AttemptOutcome) (retries : Nat) :
    Nat → Nat → Nat → List Nat → Option (String × String) × Nat × List Nat
  | 0, _, gets, delays => (none, gets, delays)
  | fuel + 1, attempt, gets, delays =>
    match oracle attempt with
    | .page status token cookies =>
      if status = 200 ∧ 0 < (token.getD "").length then
        (some (token.getD "", String.intercalate "; " cookies), gets + 1, delays)
      else
        attemptLoop oracle retries fuel (attempt + 1) (gets + 1)
          (if attempt < retries then delays ++ [0] else delays)
    | .netError =>
      attemptLoop oracle retries fuel (attempt + 1) (gets + 1)
        (if attempt < retries then delays ++ [RETRY_DELAY * 2 ^ (attempt - 1)] else delays)

/-- The message of the failure thrown by `fetchCsrfToken` when every retry
failed and no cached token exists (line 828 and line 1465). -/
def TOKEN_FAIL_MSG : String :=
  "CSRF token fetch failed: remote service unavailable or blocked"

/-- Result of one `fetchCsrfToken` call: the value returned to the caller (or
the thrown failure), the cache slot afterwards, the number of GETs issued,
the inserted backoff delays, and the value handed to the queued waiters when
a fetch actually ran (`none` when the cached token was served directly). -/
structure FetchOutcomeB where
  outcome : Except String (String × String)
  newCache : Option CachedToken
  gets : Nat
  delays : List Nat
  waiterNote : Option (Option String × Option String)
deriving Repr

/-- The fetch path of `fetchCsrfToken` in variants B and C, entered once the
cache test has failed: run the retry loop; on success cache and return the
fresh pair and notify waiters with it; on exhaustion notify waiters with the
null pair, then return the stale cached pair when one exists and otherwise
throw. -/
def fetchFreshB (st : Option CachedToken) (now : Nat)
    (oracle : Nat → AttemptOutcome) : FetchOutcomeB :=
  match attemptLoop oracle MAX_RETRIES MAX_RETRIES 1 0 [] with
  | (some (tok, cookieStr), gets, delays) =>
    { outcome := .ok (tok, cookieStr)
      newCache := some { token := tok, cookies := cookieStr, timestamp := now }
      gets := gets
      delays := delays
      waiterNote := some (some tok, some cookieStr) }
  | (none, gets, delays) =>
    match st with
    | some c =>
      { outcome := .ok (c.token, c.cookies)
        newCache := some c
        gets := gets
        delays := delays
        waiterNote := some (none, none) }
    | none =>
      { outcome := .error TOKEN_FAIL_MSG
        newCache := none
        gets := gets
        delays := delays
        waiterNote := some (none, none) }

/-- `fetchCsrfToken` of variants B and C (lines 723-829): serve the cached
pair without any network activity while its age is below the cache duration,
and otherwise run the fetch path. -/
def fetchCsrfTokenB (st : Option CachedToken) (now : Nat)
    (oracle : Nat → AttemptOutcome) : FetchOutcomeB :=
  match st with
  | some c =>
    if now - c.timestamp < TOKEN_CACHE_DURATION then
      { outcome := .ok (c.token, c.cookies)
        newCache := some c
        gets := 0
        delays := []
        waiterNote := none }
    else fetchFreshB st now oracle
  | none => fetchFreshB st now oracle

/-- The retry loop of `fetchCsrfToken` in variant A (lines 91-123): the same
attempt structure as the got-scraping variants, but the backoff delay
inserted after a transport-failure attempt is the attempt number times
1000ms (`const delay = attempt * 1000`), and the per-attempt cookie jar is
abstracted away.  A 200 response without a token, or a non-200 response,
retries immediately.  As in `attemptLoop`, the result carries the number of
GETs issued and the list of delays inserted between consecutive attempts
(an immediate retry records a 0 delay; nothing is recorded after the final
attempt). -/
def attemptLoopA (oracle : Nat → AttemptOutcome) (retries : Nat) :
    Nat → Nat → Nat → List Nat → Option String × Nat × List Nat
  | 0, _, gets, delays => (none, gets, delays)
  | fuel + 1, attempt, gets, delays =>
    match oracle attempt with
    | .page status token _ =>
      if status = 200 ∧ 0 < (token.getD "").length then
        (some (token.getD ""), gets + 1, delays)
      else
        attemptLoopA oracle retries fuel (attempt + 1) (gets + 1)
          (if attempt < retries then delays ++ [0] else delays)
    | .netError =>
      attemptLoopA oracle retries fuel (attempt + 1) (gets + 1)
        (if attempt < retries then delays ++ [attempt * 1000] else delays)

/-- `fetchCsrfToken` of variant A (lines 90-127): no cache and no throw — on
exhaustion the null token is returned and the caller `getSearchResults`
throws.  The result is the token (when found), the number of GETs issued,
and the inserted delays. -/
def fetchCsrfTokenA (oracle : Nat → AttemptOutcome) :
    Option String × Nat × List Nat :=
  attemptLoopA oracle MAX_RETRIES MAX_RETRIES 1 0 []

/-- Result of one `getSearchResults` call of variant B: the returned rows or
the propagated failure, with the GET and POST counts. -/
structure SearchOutcomeB where
  result : Except String (List SearchResult)
  gets : Nat
  posts : Nat
deriving Repr

/-- `getSearchResults` of variant B (lines 832-1069): acquire a token (a
thrown token failure aborts the search before any page POST), then run the
pagination loop. -/
def getSearchResultsB (street building apartment : String)
    (st : Option CachedToken) (now : Nat)
    (tokOracle : Nat → AttemptOutcome) (pageOracle : Nat → PageOutcome) :
    SearchOutcomeB :=
  let r := fetchCsrfTokenB st now tokOracle
  match r.outcome with
  | .error e => { result := .error e, gets := r.gets, posts := 0 }
  | .ok _ =>
    let pr := getSearchResultsBpages street building apartment pageOracle
    { result := .ok pr.1, gets := r.gets, posts := pr.2 }

/-- The JSON body of a `/api/search` request; absent fields are `none`. -/
structure ApiRequest where
  first_name : Option String
  last_name : Option String
  middle_name : Option String
  birth_date : Option String
  region : Option String
  community : Option String
  street : Option String
  building : Option String
  apartment : Option String
  district : Option String
deriving Repr

/-- The observable part of a `/api/search` response: HTTP status, the
`success` flag, and the count and rows when present. -/
structure ApiResponse where
  status : Nat
  success : Bool
  count : Option Nat
  results : Option (List SearchResult)
deriving Repr, DecidableEq

/-- The `/api/search` handler of variant B (lines 1084-1166): trim and
normalize the names, reject with a 400 response when either is empty or
shorter than 2 UTF-16 units, and otherwise run the search; the second
component is the number of network requests issued to the registry. -/
def apiSearchB (req : ApiRequest) (st : Option CachedToken) (now : Nat)
    (tokOracle : Nat → AttemptOutcome) (pageOracle : Nat → PageOutcome) :
    ApiResponse × Nat :=
  let firstName := normalizeArmenianText (trimJS (req.first_name.getD ""))
  let lastName := normalizeArmenianText (trimJS (req.last_name.getD ""))
  if firstName = "" ∨ lastName = "" then
    ({ status := 400, success := false, count := none, results := none }, 0)
  else if jsLength firstName < 2 ∨ jsLength lastName < 2 then
    ({ status := 400, success := false, count := none, results := none }, 0)
  else
    let street := normalizeArmenianText (trimJS (req.street.getD ""))
    let building := normalizeArmenianText (trimJS (req.building.getD ""))
    let apartment := normalizeArmenianText (trimJS (req.apartment.getD ""))
    let so := getSearchResultsB street building apartment st now tokOracle pageOracle
    match so.result with
    | .ok results =>
      ({ status := 200, success := true, count := some results.length,
         results := some results }, so.gets + so.posts)
    | .error _ =>
      ({ status := 500, success := false, count := none, results := none },
        so.gets + so.posts)

/-- Joint result of a burst of concurrent `fetchCsrfToken` calls. -/
structure ConcurrentOutcome where
  leaderOutcome : Except String (String × String)
  waiterOutcomes : List (Option String × Option String)
  gets : Nat
deriving Repr

/-- A burst of `n` concurrent `fetchCsrfToken` calls arriving while no fetch
is in flight, under the single-threaded event-loop semantics of the source:
the first caller finds `tokenFetchInProgress` false, sets it, and runs the
fetch; each of the remaining `n - 1` callers arrives while the fetch is in
flight, is pushed onto `tokenFetchWaiters`, issues no request of its own, and
is later resolved with the notification value of that fetch (lines 730-735
and 793-798). -/
def concurrentGetTokenB (n : Nat) (st : Option CachedToken) (now : Nat)
    (oracle : Nat → AttemptOutcome) : ConcurrentOutcome :=
  let r := fetchCsrfTokenB st now oracle
  { leaderOutcome := r.outcome
    waiterOutcomes := List.replicate (n - 1) (r.waiterNote.getD (none, none))
    gets := r.gets }

/-- A visible result row with five populated cells. -/
def sampleRow : Row :=
  { cells := ["Gevorgyan  Armen ", "18/05/1981", "ARMAVIR", "MANUKYAN 2", "14"]
    style := none }

/-- The cleaned result produced from `sampleRow`. -/
def sampleResult : SearchResult :=
  { name := "Gevorgyan Armen"
    birth_date := "18/05/1981"
    region_community := "ARMAVIR"
    address := "MANUKYAN 2"
    district := "14" }

/-- Page oracle: pages 1 and 2 return one usable row, later pages return an
empty table. -/
def pagesTwoThenEmpty : Nat → PageOutcome :=
  fun p => if p ≤ 2 then .http 200 (some [sampleRow]) else .http 200 (some [])

/-- Page oracle: page 1 returns one usable row, page 2 fails with HTTP 500. -/
def pageOneThenHttp500 : Nat → PageOutcome :=
  fun p => if p = 1 then .http 200 (some [sampleRow]) else .http 500 none

/-- Token oracle on which every attempt fails in transport. -/
def attemptsAllNetError : Nat → AttemptOutcome :=
  fun _ => .netError

/-- Token oracle: attempt 1 fails in transport, later attempts return a 200
page without a token. -/
def attemptsMixedFail : Nat → AttemptOutcome :=
  fun k => if k = 1 then .netError else .page 200 none []

/-- Token oracle on which the first attempt already succeeds. -/
def attemptsFirstOk : Nat → AttemptOutcome :=
  fun _ => .page 200 (some "tok123") ["a=1", "b=2"]

example : parseRow sampleRow = some sampleResult := by decide
example : (getSearchResultsCpages "MANUKYAN" "" "" pagesTwoThenEmpty).2 = 3 := by decide
example : (getSearchResultsBpages "MANUKYAN" "" "" pagesTwoThenEmpty).2 = 1 := by decide
example :
    (fetchCsrfTokenB none 0 attemptsMixedFail).delays = [2000, 0] := by decide
example :
    (fetchCsrfTokenB none 0 attemptsFirstOk).outcome =
      Except.ok ("tok123", "a=1; b=2") := rfl
example : (fetchCsrfTokenB none 0 attemptsAllNetError).gets = 3 := by decide

/-- C1: `convertDateFormat` maps "18/05/1981" to "1981-05-18"; an input that
does not split into exactly three slash-separated parts yields the empty
string; and an input whose components fail the bounds validation (day 1..31,
month 1..12, year 1900..2100) yields the empty string. -/
theorem claimC1 :
    convertDateFormat "18/05/1981" = "1981-05-18" ∧
    (∀ s, (splitSlash s).length ≠ 3 → convertDateFormat s = "") ∧
    (∀ s d m y, splitSlash s = [d, m, y] → dateComponentsValid d m y = false →
      convertDateFormat s = "") := by
  refine ⟨by decide, ?_, ?_⟩
  · intro s h
    unfold convertDateFormat
    split
    · rfl
    · split
      · next day month year heq => simp [heq] at h
      · rfl
  · intro s d m y hsplit hvalid
    unfold convertDateFormat
    split
    · rfl
    · split
      · next day month year heq =>
          rw [hsplit] at heq
          injection heq with h1 heq
          injection heq with h2 heq
          injection heq with h3 _
          rw [← h1, ← h2, ← h3, hvalid]
          simp
      · next hnone => exact absurd hsplit (hnone d m y)

/-- Witness for C1 at concrete malformed and out-of-bounds inputs. -/
theorem claimC1_witness :
    convertDateFormat "18-05-1981" = "" ∧ convertDateFormat "13/13/1981" = "" :=
  ⟨claimC1.2.1 "18-05-1981" (by decide),
   claimC1.2.2 "13/13/1981" "13" "13" "1981" (by decide) (by decide)⟩

/-- C10: the component validation of `convertDateFormat` is independent per
component and never checks calendar validity: any input splitting into three
parts whose day, month and year each lie in bounds is reformatted, so
"31/02/2000" yields "2000-02-31" rather than the empty string. -/
theorem claimC10 :
    convertDateFormat "31/02/2000" = "2000-02-31" ∧
    ∀ s d m y, splitSlash s = [d, m, y] → trimJS s ≠ "" →
      dateComponentsValid d m y = true →
      convertDateFormat s = y ++ "-" ++ padStart2 m ++ "-" ++ padStart2 d := by
  refine ⟨by decide, ?_⟩
  intro s d m y hsplit htrim hvalid
  unfold convertDateFormat
  split
  · next hempty => exact absurd hempty htrim
  · split
    · next day month year heq =>
        rw [hsplit] at heq
        injection heq with h1 heq
        injection heq with h2 heq
        injection heq with h3 _
        rw [← h1, ← h2, ← h3, hvalid]
        simp
    · next hnone => exact absurd hsplit (hnone d m y)

/-- Witness for C10 at the impossible calendar date 31 February 2000. -/
theorem claimC10_witness :
    convertDateFormat "31/02/2000" =
      "2000" ++ "-" ++ padStart2 "02" ++ "-" ++ padStart2 "31" :=
  claimC10.2 "31/02/2000" "31" "02" "2000" (by decide) (by decide) (by decide)

/-- C7: a row with fewer than 5 cells is skipped; a hidden row is skipped; a
row with at least 5 cells whose cleaned name is blank is skipped; and a row
with at least 5 cells, a non-blank name and no hidden style is included with
all five fields whitespace-collapsed and trimmed. -/
theorem claimC7 :
    (∀ r : Row, r.cells.length < 5 → parseRow r = none) ∧
    (∀ r : Row, rowHidden r = true → parseRow r = none) ∧
    (∀ r : Row, 5 ≤ r.cells.length → cleanText (r.cells.getD 0 "") = "" →
      parseRow r = none) ∧
    (∀ r : Row, 5 ≤ r.cells.length → rowHidden r = false →
      cleanText (r.cells.getD 0 "") ≠ "" →
      parseRow r = some
        { name := cleanText (r.cells.getD 0 "")
          birth_date := cleanText (r.cells.getD 1 "")
          region_community := cleanText (r.cells.getD 2 "")
          address := cleanText (r.cells.getD 3 "")
          district := cleanText (r.cells.getD 4 "") }) := by
  refine ⟨?_, ?_, ?_, ?_⟩
  · intro r h
    unfold parseRow
    rw [if_neg]
    rintro ⟨h5, _⟩
    omega
  · intro r h
    unfold parseRow
    rw [if_neg]
    rintro ⟨_, hh⟩
    rw [h] at hh
    exact Bool.noConfusion hh
  · intro r h5 hname
    unfold parseRow
    by_cases hh : rowHidden r = false
    · rw [if_pos ⟨h5, hh⟩, if_neg (fun hc => hc hname)]
    · rw [if_neg]
      rintro ⟨_, hh2⟩
      exact hh hh2
  · intro r h5 hh hname
    unfold parseRow
    rw [if_pos ⟨h5, hh⟩, if_pos hname]

/-- C4: a `fetchCsrfToken` call made while the cached token is younger than
five minutes returns the cached token and cookie pair and issues zero
network requests. -/
theorem claimC4 (c : CachedToken) (now : Nat) (oracle : Nat → AttemptOutcome)
    (h : now - c.timestamp < TOKEN_CACHE_DURATION) :
    (fetchCsrfTokenB (some c) now oracle).outcome = Except.ok (c.token, c.cookies) ∧
    (fetchCsrfTokenB (some c) now oracle).gets = 0 := by
  simp only [fetchCsrfTokenB]
  rw [if_pos h]
  exact ⟨rfl, rfl⟩

/-- Witness for C4: a token cached at time 0 queried at time 1000. -/
theorem claimC4_witness :
    (1000 : Nat) - 0 < TOKEN_CACHE_DURATION ∧
    (fetchCsrfTokenB (some { token := "t1", cookies := "c1", timestamp := 0 })
        1000 attemptsAllNetError).outcome = Except.ok ("t1", "c1") ∧
    (fetchCsrfTokenB (some { token := "t1", cookies := "c1", timestamp := 0 })
        1000 attemptsAllNetError).gets = 0 :=
  ⟨by decide,
   (claimC4 { token := "t1", cookies := "c1", timestamp := 0 } 1000
      attemptsAllNetError (by decide)).1,
   (claimC4 { token := "t1", cookies := "c1", timestamp := 0 } 1000
      attemptsAllNetError (by decide)).2⟩

/-- C2: a `/api/search` call whose first or last name is empty or shorter
than 2 characters after trimming and normalization is rejected with a 400
response, `success` false, and zero network requests to the registry. -/
theorem claimC2 (req : ApiRequest) (st : Option CachedToken) (now : Nat)
    (tokOracle : Nat → AttemptOutcome) (pageOracle : Nat → PageOutcome)
    (h : jsLength (normalizeArmenianText (trimJS (req.first_name.getD ""))) < 2 ∨
         jsLength (normalizeArmenianText (trimJS (req.last_name.getD ""))) < 2) :
    (apiSearchB req st now tokOracle pageOracle).1.status = 400 ∧
    (apiSearchB req st now tokOracle pageOracle).1.success = false ∧
    (apiSearchB req st now tokOracle pageOracle).2 = 0 := by
  simp only [apiSearchB]
  by_cases h0 : normalizeArmenianText (trimJS (req.first_name.getD "")) = "" ∨
      normalizeArmenianText (trimJS (req.last_name.getD "")) = ""
  · rw [if_pos h0]
    exact ⟨rfl, rfl, rfl⟩
  · rw [if_neg h0, if_pos h]
    exact ⟨rfl, rfl, rfl⟩

/-- Witness for C2: a one-letter last name is rejected without network
activity. -/
theorem claimC2_witness :
    jsLength (normalizeArmenianText (trimJS ((some "G").getD ""))) < 2 ∧
    (apiSearchB
        { first_name := some "Grigor", last_name := some "G",
          middle_name := none, birth_date := none, region := none,
          community := none, street := none, building := none,
          apartment := none, district := none }
        none 0 attemptsFirstOk pagesTwoThenEmpty).1.status = 400 ∧
    (apiSearchB
        { first_name := some "Grigor", last_name := some "G",
          middle_name := none, birth_date := none, region := none,
          community := none, street := none, building := none,
          apartment := none, district := none }
        none 0 attemptsFirstOk pagesTwoThenEmpty).2 = 0 := by
  refine ⟨by decide, ?_, ?_⟩
  · exact (claimC2 _ none 0 attemptsFirstOk pagesTwoThenEmpty (Or.inr (by decide))).1
  · exact (claimC2 _ none 0 attemptsFirstOk pagesTwoThenEmpty (Or.inr (by decide))).2.2

/-- C8: in the pagination loop, a non-200 status at the current page stops
paging at once and the rows aggregated from the earlier pages are returned
as an ordinary (successful) result, not raised as an error; this holds for
the loop of variants B and C and for the loop of variant A, and a full run
of variant B from page 1 with a good first page and a failing second page
returns exactly the first page's rows after 2 POSTs. -/
theorem claimC8 :
    (∀ (oracle : Nat → PageOutcome) (maxPages fuel page posts status : Nat)
        (acc : List SearchResult) (table : Option (List Row)),
      page ≤ maxPages → oracle page = .http status table → status ≠ 200 →
      pagingGoB oracle maxPages (fuel + 1) page acc posts = (acc, posts + 1)) ∧
    (∀ (oracle : Nat → PageOutcomeA)
        (maxPages fuel page consecEmpty posts status : Nat)
        (acc : List SearchResult) (table : Option (List Row)),
      page ≤ maxPages → consecEmpty < 2 →
      oracle page = .resp false status table → status ≠ 200 →
      pagingGoA oracle maxPages (fuel + 1) page consecEmpty acc posts =
        (acc, posts + 1)) ∧
    (∀ (oracle : Nat → PageOutcome) (rows1 : List Row) (s2 : Nat)
        (t2 : Option (List Row)),
      oracle 1 = .http 200 (some rows1) → rows1.filterMap parseRow ≠ [] →
      oracle 2 = .http s2 t2 → s2 ≠ 200 →
      getSearchResultsBpages "" "" "" oracle = (rows1.filterMap parseRow, 2)) := by
  refine ⟨?_, ?_, ?_⟩
  · intro oracle maxPages fuel page posts status acc table hpage ho hs
    simp [pagingGoB, Nat.not_lt.mpr hpage, ho, hs]
  · intro oracle maxPages fuel page consecEmpty posts status acc table hpage hce ho hs
    have hguard : ¬(maxPages < page ∨ 2 ≤ consecEmpty) := by omega
    simp [pagingGoA, hguard, ho, hs]
  · intro oracle rows1 s2 t2 ho1 hne ho2 hs
    have hlen : 0 < (rows1.filterMap parseRow).length := List.length_pos.mpr hne
    simp [getSearchResultsBpages, pagingGoB, ho1, ho2, hs, hlen]

/-- Witness for C8: page 1 returns one row, page 2 returns HTTP 500; the
search returns the page-1 row as a success after two POSTs. -/
theorem claimC8_witness :
    getSearchResultsBpages "" "" "" pageOneThenHttp500 =
      ([sampleRow].filterMap parseRow, 2) :=
  claimC8.2.2 pageOneThenHttp500 [sampleRow] 500 none
    (by decide) (by decide) (by decide) (by decide)

/-- C3 counterexample: in variant C (lines 1536-1538) the page cap is the
constant 50, independent of the address fields, so a search with a non-empty
street issues 3 page POSTs when pages keep returning rows — not at most 1. -/
theorem claimC3_counterexample :
    (getSearchResultsCpages "MANUKYAN" "" "" pagesTwoThenEmpty).2 = 3 ∧
    (getSearchResultsCpages "MANUKYAN" "" "" pagesTwoThenEmpty).2 ≠ 1 :=
  ⟨by decide, by decide⟩

/-- C3 amended: in variant A and in variant B, a search with a non-empty
street, building or apartment issues exactly 1 page POST regardless of what
the pages return; variant C instead uses a fixed 50-page cap that ignores
the address fields. -/
theorem claimC3_amended (street building apartment : String)
    (h : street ≠ "" ∨ building ≠ "" ∨ apartment ≠ "") :
    (∀ oracle : Nat → PageOutcomeA,
      (getSearchResultsApages street building apartment oracle).2 = 1) ∧
    (∀ oracle : Nat → PageOutcome,
      (getSearchResultsBpages street building apartment oracle).2 = 1) := by
  constructor
  · intro oracle
    simp only [getSearchResultsApages]
    rw [if_pos h]
    cases ho : oracle 1 with
    | netError => simp [pagingGoA, ho]
    | resp blocked status table =>
      cases blocked with
      | true => simp [pagingGoA, ho]
      | false =>
        cases table with
        | none => by_cases hs : status = 200 <;> simp [pagingGoA, ho, hs]
        | some rows =>
          by_cases hs : status = 200 <;>
            by_cases hr : 0 < (rows.filterMap parseRow).length <;>
              simp [pagingGoA, ho, hs, hr]
  · intro oracle
    simp only [getSearchResultsBpages]
    rw [if_pos h]
    cases ho : oracle 1 with
    | netError => simp [pagingGoB, ho]
    | http status table =>
      cases table with
      | none => by_cases hs : status = 200 <;> simp [pagingGoB, ho, hs]
      | some rows =>
        by_cases hs : status = 200 <;>
          by_cases hr : 0 < (rows.filterMap parseRow).length <;>
            simp [pagingGoB, ho, hs, hr]

/-- Witness for C3 amended: with street set, both variant A and variant B
issue exactly one POST even when every page would return rows. -/
theorem claimC3_amended_witness :
    (getSearchResultsApages "MANUKYAN" "" ""
        (fun _ => .resp false 200 (some [sampleRow]))).2 = 1 ∧
    (getSearchResultsBpages "MANUKYAN" "" "" pagesTwoThenEmpty).2 = 1 :=
  ⟨(claimC3_amended "MANUKYAN" "" "" (Or.inl (by decide))).1 _,
   (claimC3_amended "MANUKYAN" "" "" (Or.inl (by decide))).2 pagesTwoThenEmpty⟩

/-- Witness for C7: a short row, a hidden row, a blank-name row and a good
row, each at concrete values. -/
theorem claimC7_witness :
    parseRow { cells := ["a", "b"], style := none } = none ∧
    parseRow { cells := sampleRow.cells, style := some "display:none" } = none ∧
    parseRow { cells := ["   ", "b", "c", "d", "e"], style := none } = none ∧
    parseRow sampleRow = some
      { name := cleanText (sampleRow.cells.getD 0 "")
        birth_date := cleanText (sampleRow.cells.getD 1 "")
        region_community := cleanText (sampleRow.cells.getD 2 "")
        address := cleanText (sampleRow.cells.getD 3 "")
        district := cleanText (sampleRow.cells.getD 4 "") } :=
  ⟨claimC7.1 _ (by decide),
   claimC7.2.1 _ (by decide),
   claimC7.2.2.1 _ (by decide) (by decide),
   claimC7.2.2.2 sampleRow (by decide) (by decide) (by decide)⟩

/-- On an oracle where every attempt fails, the retry loop never produces a
token. -/
theorem attemptLoop_fail (oracle : Nat → AttemptOutcome) (retries : Nat)
    (hfail : ∀ k, attemptFailed (oracle k) = true) :
    ∀ fuel attempt gets delays,
      (attemptLoop oracle retries fuel attempt gets delays).1 = none := by
  intro fuel
  induction fuel with
  | zero => intro attempt gets delays; rfl
  | succ fuel ih =>
    intro attempt gets delays
    cases ho : oracle attempt with
    | page status token cookies =>
      have hf := hfail attempt
      rw [ho] at hf
      simp only [attemptFailed, Bool.not_eq_true', decide_eq_false_iff_not] at hf
      simp only [attemptLoop, ho]
      rw [if_neg hf]
      exact ih (attempt + 1) (gets + 1) _
    | netError =>
      simp only [attemptLoop, ho]
      exact ih (attempt + 1) (gets + 1) _

/-- C6: when every retry attempt of a token fetch fails, a stale cached
token is returned as a degraded fallback, and with no cached token at all
the fetch throws the token-unavailable failure, which aborts the whole
search before any page POST. -/
theorem claimC6 (now : Nat) (oracle : Nat → AttemptOutcome)
    (hfail : ∀ k, attemptFailed (oracle k) = true) :
    (∀ c : CachedToken, ¬ now - c.timestamp < TOKEN_CACHE_DURATION →
      (fetchCsrfTokenB (some c) now oracle).outcome =
        Except.ok (c.token, c.cookies)) ∧
    (fetchCsrfTokenB none now oracle).outcome = Except.error TOKEN_FAIL_MSG ∧
    (∀ street building apartment pageOracle,
      (getSearchResultsB street building apartment none now oracle
          pageOracle).result = Except.error TOKEN_FAIL_MSG ∧
      (getSearchResultsB street building apartment none now oracle
          pageOracle).posts = 0) := by
  rcases hrun : attemptLoop oracle MAX_RETRIES MAX_RETRIES 1 0 [] with ⟨res, gets, delays⟩
  have hres : res = none := by
    have := attemptLoop_fail oracle MAX_RETRIES hfail MAX_RETRIES 1 0 []
    rw [hrun] at this
    exact this
  subst hres
  have hnone : (fetchCsrfTokenB none now oracle).outcome = Except.error TOKEN_FAIL_MSG := by
    simp [fetchCsrfTokenB, fetchFreshB, hrun]
  refine ⟨?_, hnone, ?_⟩
  · intro c hc
    simp [fetchCsrfTokenB, fetchFreshB, hrun, hc]
  · intro street building apartment pageOracle
    constructor <;> simp [getSearchResultsB, hnone]

/-- Witness for C6: with all attempts failing, a stale token is served as
fallback, an empty cache yields the thrown failure, and the search issues no
page POST. -/
theorem claimC6_witness :
    (fetchCsrfTokenB (some { token := "t1", cookies := "c1", timestamp := 0 })
        (10 * TOKEN_CACHE_DURATION) attemptsAllNetError).outcome =
      Except.ok ("t1", "c1") ∧
    (fetchCsrfTokenB none 0 attemptsAllNetError).outcome =
      Except.error TOKEN_FAIL_MSG ∧
    (getSearchResultsB "" "" "" none 0 attemptsAllNetError
        pagesTwoThenEmpty).posts = 0 :=
  ⟨(claimC6 (10 * TOKEN_CACHE_DURATION) attemptsAllNetError
      (fun _ => rfl)).1 { token := "t1", cookies := "c1", timestamp := 0 }
      (by decide),
   (claimC6 0 attemptsAllNetError (fun _ => rfl)).2.1,
   ((claimC6 0 attemptsAllNetError (fun _ => rfl)).2.2 "" "" ""
      pagesTwoThenEmpty).2⟩

/-- C5 counterexample: on a fetch sequence whose first attempt fails in
transport and whose second attempt returns a page without a token, the
inserted delays are 2000ms and then 0ms — an immediate retry — so no fixed
base delay makes the delay before attempt k+1 equal base times 2 to the
power k-1. -/
theorem claimC5_counterexample :
    (fetchCsrfTokenB none 0 attemptsMixedFail).delays = [2000, 0] ∧
    ∀ b : Nat, [2000, 0] ≠ [b * 2 ^ 0, b * 2 ^ 1] := by
  refine ⟨by decide, ?_⟩
  intro b h
  simp only [List.cons.injEq, and_true] at h
  omega

/-- C5 amended: in every variant a token fetch is retried up to 3 attempts
in total, and a backoff delay is inserted only after an attempt that failed
in transport: in the got-scraping variants the delay before attempt k+1 is
RETRY_DELAY times 2 to the power k-1, while in the axios variant it is the
attempt number k times 1000ms; an attempt that failed with a missing token
or a non-200 status is followed immediately by the next attempt, with no
delay. -/
theorem claimC5_amended (st : Option CachedToken) (now : Nat)
    (oracle : Nat → AttemptOutcome)
    (hc : ∀ c, st = some c → ¬ now - c.timestamp < TOKEN_CACHE_DURATION) :
    ((fetchCsrfTokenB st now oracle).gets ≤ 3 ∧
     (fetchCsrfTokenB st now oracle).delays.length ≤ 2 ∧
     ∀ i, i < (fetchCsrfTokenB st now oracle).delays.length →
       (fetchCsrfTokenB st now oracle).delays.getD i 0 =
         (match oracle (i + 1) with
          | .netError => RETRY_DELAY * 2 ^ i
          | .page _ _ _ => 0)) ∧
    ((fetchCsrfTokenA oracle).2.1 ≤ 3 ∧
     (fetchCsrfTokenA oracle).2.2.length ≤ 2 ∧
     ∀ i, i < (fetchCsrfTokenA oracle).2.2.length →
       (fetchCsrfTokenA oracle).2.2.getD i 0 =
         (match oracle (i + 1) with
          | .netError => (i + 1) * 1000
          | .page _ _ _ => 0)) := by
  constructor
  · have hred : fetchCsrfTokenB st now oracle = fetchFreshB st now oracle := by
      cases st with
      | none => rfl
      | some c => simp [fetchCsrfTokenB, hc c rfl]
    have hfields : (fetchFreshB st now oracle).gets =
        (attemptLoop oracle MAX_RETRIES MAX_RETRIES 1 0 []).2.1 ∧
        (fetchFreshB st now oracle).delays =
          (attemptLoop oracle MAX_RETRIES MAX_RETRIES 1 0 []).2.2 := by
      rcases hrun : attemptLoop oracle MAX_RETRIES MAX_RETRIES 1 0 [] with ⟨res, gets, delays⟩
      cases res with
      | some p =>
        rcases p with ⟨t, cs⟩
        simp [fetchFreshB, hrun]
      | none => cases st <;> simp [fetchFreshB, hrun]
    rw [hred, hfields.1, hfields.2]
    cases h1 : oracle 1 with
    | page s1 t1 c1 =>
      by_cases hs1 : s1 = 200 ∧ 0 < (t1.getD "").length
      · simp [attemptLoop, h1, hs1, MAX_RETRIES]
      · cases h2 : oracle 2 with
        | page s2 t2 c2 =>
          by_cases hs2 : s2 = 200 ∧ 0 < (t2.getD "").length
          · simp [attemptLoop, h1, h2, hs1, hs2, MAX_RETRIES]
          · cases h3 : oracle 3 with
            | page s3 t3 c3 =>
              by_cases hs3 : s3 = 200 ∧ 0 < (t3.getD "").length
              · simp [attemptLoop, h1, h2, h3, hs1, hs2, hs3, MAX_RETRIES]
                intro i hi
                interval_cases i <;> simp [h1, h2]
              · simp [attemptLoop, h1, h2, h3, hs1, hs2, hs3, MAX_RETRIES]
                intro i hi
                interval_cases i <;> simp [h1, h2]
            | netError =>
              simp [attemptLoop, h1, h2, h3, hs1, hs2, MAX_RETRIES]
              intro i hi
              interval_cases i <;> simp [h1, h2]
        | netError =>
          cases h3 : oracle 3 with
          | page s3 t3 c3 =>
            by_cases hs3 : s3 = 200 ∧ 0 < (t3.getD "").length
            · simp [attemptLoop, h1, h2, h3, hs1, hs3, MAX_RETRIES, RETRY_DELAY]
              intro i hi
              interval_cases i <;> simp [h1, h2, RETRY_DELAY]
            · simp [attemptLoop, h1, h2, h3, hs1, hs3, MAX_RETRIES, RETRY_DELAY]
              intro i hi
              interval_cases i <;> simp [h1, h2, RETRY_DELAY]
          | netError =>
            simp [attemptLoop, h1, h2, h3, hs1, MAX_RETRIES, RETRY_DELAY]
            intro i hi
            interval_cases i <;> simp [h1, h2, RETRY_DELAY]
    | netError =>
      cases h2 : oracle 2 with
      | page s2 t2 c2 =>
        by_cases hs2 : s2 = 200 ∧ 0 < (t2.getD "").length
        · simp [attemptLoop, h1, h2, hs2, MAX_RETRIES, RETRY_DELAY]
        · cases h3 : oracle 3 with
          | page s3 t3 c3 =>
            by_cases hs3 : s3 = 200 ∧ 0 < (t3.getD "").length
            · simp [attemptLoop, h1, h2, h3, hs2, hs3, MAX_RETRIES, RETRY_DELAY]
              intro i hi
              interval_cases i <;> simp [h1, h2, RETRY_DELAY]
            · simp [attemptLoop, h1, h2, h3, hs2, hs3, MAX_RETRIES, RETRY_DELAY]
              intro i hi
              interval_cases i <;> simp [h1, h2, RETRY_DELAY]
          | netError =>
            simp [attemptLoop, h1, h2, h3, hs2, MAX_RETRIES, RETRY_DELAY]
            intro i hi
            interval_cases i <;> simp [h1, h2, RETRY_DELAY]
      | netError =>
        cases h3 : oracle 3 with
        | page s3 t3 c3 =>
          by_cases hs3 : s3 = 200 ∧ 0 < (t3.getD "").length
          · simp [attemptLoop, h1, h2, h3, hs3, MAX_RETRIES, RETRY_DELAY]
            intro i hi
            interval_cases i <;> simp [h1, h2, RETRY_DELAY]
          · simp [attemptLoop, h1, h2, h3, hs3, MAX_RETRIES, RETRY_DELAY]
            intro i hi
            interval_cases i <;> simp [h1, h2, RETRY_DELAY]
        | netError =>
          simp [attemptLoop, h1, h2, h3, MAX_RETRIES, RETRY_DELAY]
          intro i hi
          interval_cases i <;> simp [h1, h2, RETRY_DELAY]
  · simp only [fetchCsrfTokenA]
    cases h1 : oracle 1 with
    | page s1 t1 c1 =>
      by_cases hs1 : s1 = 200 ∧ 0 < (t1.getD "").length
      · simp [attemptLoopA, h1, hs1, MAX_RETRIES]
      · cases h2 : oracle 2 with
        | page s2 t2 c2 =>
          by_cases hs2 : s2 = 200 ∧ 0 < (t2.getD "").length
          · simp [attemptLoopA, h1, h2, hs1, hs2, MAX_RETRIES]
          · cases h3 : oracle 3 with
            | page s3 t3 c3 =>
              by_cases hs3 : s3 = 200 ∧ 0 < (t3.getD "").length
              · simp [attemptLoopA, h1, h2, h3, hs1, hs2, hs3, MAX_RETRIES]
                intro i hi
                interval_cases i <;> simp [h1, h2]
              · simp [attemptLoopA, h1, h2, h3, hs1, hs2, hs3, MAX_RETRIES]
                intro i hi
                interval_cases i <;> simp [h1, h2]
            | netError =>
              simp [attemptLoopA, h1, h2, h3, hs1, hs2, MAX_RETRIES]
              intro i hi
              interval_cases i <;> simp [h1, h2]
        | netError =>
          cases h3 : oracle 3 with
          | page s3 t3 c3 =>
            by_cases hs3 : s3 = 200 ∧ 0 < (t3.getD "").length
            · simp [attemptLoopA, h1, h2, h3, hs1, hs3, MAX_RETRIES]
              intro i hi
              interval_cases i <;> simp [h1, h2]
            · simp [attemptLoopA, h1, h2, h3, hs1, hs3, MAX_RETRIES]
              intro i hi
              interval_cases i <;> simp [h1, h2]
          | netError =>
            simp [attemptLoopA, h1, h2, h3, hs1, MAX_RETRIES]
            intro i hi
            interval_cases i <;> simp [h1, h2]
    | netError =>
      cases h2 : oracle 2 with
      | page s2 t2 c2 =>
        by_cases hs2 : s2 = 200 ∧ 0 < (t2.getD "").length
        · simp [attemptLoopA, h1, h2, hs2, MAX_RETRIES]
        · cases h3 : oracle 3 with
          | page s3 t3 c3 =>
            by_cases hs3 : s3 = 200 ∧ 0 < (t3.getD "").length
            · simp [attemptLoopA, h1, h2, h3, hs2, hs3, MAX_RETRIES]
              intro i hi
              interval_cases i <;> simp [h1, h2]
            · simp [attemptLoopA, h1, h2, h3, hs2, hs3, MAX_RETRIES]
              intro i hi
              interval_cases i <;> simp [h1, h2]
          | netError =>
            simp [attemptLoopA, h1, h2, h3, hs2, MAX_RETRIES]
            intro i hi
            interval_cases i <;> simp [h1, h2]
      | netError =>
        cases h3 : oracle 3 with
        | page s3 t3 c3 =>
          by_cases hs3 : s3 = 200 ∧ 0 < (t3.getD "").length
          · simp [attemptLoopA, h1, h2, h3, hs3, MAX_RETRIES]
            intro i hi
            interval_cases i <;> simp [h1, h2]
          · simp [attemptLoopA, h1, h2, h3, hs3, MAX_RETRIES]
            intro i hi
            interval_cases i <;> simp [h1, h2]
        | netError =>
          simp [attemptLoopA, h1, h2, h3, MAX_RETRIES]
          intro i hi
          interval_cases i <;> simp [h1, h2]

/-- Witness for C5 amended: on the mixed-failure oracle, the delay before
attempt 2 matches each variant's transport-failure backoff: 2000ms in the
got-scraping variants and 1000ms in the axios variant. -/
theorem claimC5_amended_witness :
    ((fetchCsrfTokenB none 0 attemptsMixedFail).delays.getD 0 0 =
      (match attemptsMixedFail (0 + 1) with
       | .netError => RETRY_DELAY * 2 ^ 0
       | .page _ _ _ => 0)) ∧
    ((fetchCsrfTokenA attemptsMixedFail).2.2.getD 0 0 =
      (match attemptsMixedFail (0 + 1) with
       | .netError => (0 + 1) * 1000
       | .page _ _ _ => 0)) :=
  ⟨(claimC5_amended none 0 attemptsMixedFail
      (fun _ h => Option.noConfusion h)).1.2.2 0 (by decide),
   (claimC5_amended none 0 attemptsMixedFail
      (fun _ h => Option.noConfusion h)).2.2.2 0 (by decide)⟩

/-- C9 counterexample: two concurrent token requests arriving with an empty
cache and no fetch in flight, on a fetch whose attempts all fail in
transport, issue 3 GETs — the retry attempts of the single in-flight fetch —
not exactly one. -/
theorem claimC9_counterexample :
    (concurrentGetTokenB 2 none 0 attemptsAllNetError).gets = 3 ∧
    (concurrentGetTokenB 2 none 0 attemptsAllNetError).gets ≠ 1 :=
  ⟨by decide, by decide⟩

/-- C9 amended: concurrent token requests arriving while no valid cache
exists and no fetch is in flight share one single-flight fetch: the GET
count is that of the single fetch alone — exactly 1 when its first attempt
succeeds, regardless of the number of callers — and every waiting caller is
resolved with that fetch's notification value: the fresh token and cookie
string on success, and the null pair when every attempt fails. -/
theorem claimC9_amended (n now : Nat) (st : Option CachedToken)
    (oracle : Nat → AttemptOutcome) (t : String) (cs : List String)
    (hc : ∀ c, st = some c → ¬ now - c.timestamp < TOKEN_CACHE_DURATION)
    (h1 : oracle 1 = .page 200 (some t) cs) (ht : 0 < t.length) :
    (concurrentGetTokenB n st now oracle).gets = 1 ∧
    (concurrentGetTokenB n st now oracle).leaderOutcome =
      Except.ok (t, String.intercalate "; " cs) ∧
    (concurrentGetTokenB n st now oracle).waiterOutcomes =
      List.replicate (n - 1) (some t, some (String.intercalate "; " cs)) ∧
    (∀ oracle2 : Nat → AttemptOutcome,
      (∀ k, attemptFailed (oracle2 k) = true) →
      (concurrentGetTokenB n st now oracle2).waiterOutcomes =
        List.replicate (n - 1)
          ((none : Option String), (none : Option String))) := by
  have hred : ∀ o : Nat → AttemptOutcome,
      fetchCsrfTokenB st now o = fetchFreshB st now o := by
    intro o
    cases st with
    | none => rfl
    | some c => simp [fetchCsrfTokenB, hc c rfl]
  have hrun : attemptLoop oracle MAX_RETRIES MAX_RETRIES 1 0 [] =
      (some (t, String.intercalate "; " cs), 1, []) := by
    simp [attemptLoop, h1, ht, MAX_RETRIES]
  refine ⟨?_, ?_, ?_, ?_⟩
  · simp [concurrentGetTokenB, hred, fetchFreshB, hrun]
  · simp [concurrentGetTokenB, hred, fetchFreshB, hrun]
  · simp [concurrentGetTokenB, hred, fetchFreshB, hrun]
  · intro oracle2 hfail
    rcases hrun2 : attemptLoop oracle2 MAX_RETRIES MAX_RETRIES 1 0 [] with ⟨res, gets, delays⟩
    have hres : res = none := by
      have := attemptLoop_fail oracle2 MAX_RETRIES hfail MAX_RETRIES 1 0 []
      rw [hrun2] at this
      exact this
    subst hres
    cases st with
    | none => simp [concurrentGetTokenB, fetchCsrfTokenB, fetchFreshB, hrun2]
    | some c => simp [concurrentGetTokenB, hred, fetchFreshB, hrun2]

/-- Witness for C9 amended: five concurrent callers with a first-attempt
success issue one GET and all four waiters receive the token. -/
theorem claimC9_amended_witness :
    (concurrentGetTokenB 5 none 0 attemptsFirstOk).gets = 1 ∧
    (concurrentGetTokenB 5 none 0 attemptsFirstOk).waiterOutcomes =
      List.replicate 4 (some "tok123", some "a=1; b=2") := by
  have h := claimC9_amended 5 0 none attemptsFirstOk "tok123" ["a=1", "b=2"]
    (fun _ hx => Option.noConfusion hx) rfl (by decide)
  exact ⟨h.1, by rw [h.2.2.1]; rfl⟩
